import Mathlib

/-!
Verification of the email triage core (email_filter.py, email_processor.py,
email_tracker.py, main.py) against its specification.

Modelling conventions:
* Python `str` is modelled by Lean `String`; `str.lower()` / `isupper()` are
  modelled at ASCII granularity (`Char.toLower` / `Char.isUpper`), which agrees
  with Python on all ASCII text.
* Python floats are modelled by exact rationals `ℚ`; every score constant in
  the source (0.1 .. 1.0) is an exact decimal.
* Python dicts keyed by strings are modelled by association lists
  (`List (String × _)`) with dict-update semantics (`dictInsert`);
  well-formedness (at most one entry per key) is the `(keys l).Nodup` predicate.
* `datetime` values are modelled as integer timestamps in seconds;
  `timedelta(days=d)` is `d*86400`, `timedelta(hours=h)` is `h*3600`,
  `timedelta.days` is floor division by 86400 (`Int.fdiv`).
* The regexes in EmailFilter all belong to the tiny class "literals and `.*`";
  they are modelled by token lists (`RTok`) and an exact matcher `rmatch`
  implementing Python `re.match` (anchored at the start, a prefix may match,
  `.` does not match a newline).
-/

/-- ASCII model of Python `str.lower()`. -/
def pyLower (s : String) : String := ⟨s.data.map Char.toLower⟩

/-- Python `sub in s` (substring containment). -/
def pyContains (s sub : String) : Bool := s.data.tails.any (fun t => sub.data.isPrefixOf t)

/-- Python `s.startswith(p)`. -/
def pyStartsWith (s p : String) : Bool := p.data.isPrefixOf s.data

/-- Python `s.endswith(p)`. -/
def pyEndsWith (s p : String) : Bool := p.data.isSuffixOf s.data

/-- Python dict `.get(key, "")` for an optional string field. -/
def getS (o : Option String) : String := o.getD ""

/-- Tokens of the regex fragment used by EmailFilter: a literal character or
`.*` (any run of non-newline characters). -/
inductive RTok where
  | lit (c : Char)
  | star
deriving DecidableEq

/-- Fuel-indexed matcher for the regex fragment (structural recursion on the
fuel so that the kernel can evaluate it); each recursive call strictly
decreases `p.length + s.length`, so any fuel above that bound gives the fixed
point (`rmatchF_congr`). -/
def rmatchF : Nat → List RTok → List Char → Bool
  | 0, _, _ => false
  | _ + 1, [], _ => true
  | _ + 1, RTok.lit _ :: _, [] => false
  | f + 1, RTok.lit c :: p', x :: s' => x == c && rmatchF f p' s'
  | f + 1, RTok.star :: p', s =>
    rmatchF f p' s ||
      (match s with
       | [] => false
       | x :: s' => !(x == '\n') && rmatchF f (RTok.star :: p') s')

/-- Exact model of Python `re.match(pattern, s)` for patterns made of literals
and `.*`: the match is anchored at the start of `s` and may cover any prefix;
`.` does not match `'\n'`. -/
def rmatch (p : List RTok) (s : List Char) : Bool :=
  rmatchF (p.length + s.length + 1) p s

theorem rmatchF_congr : ∀ (f₁ f₂ : Nat) (p : List RTok) (s : List Char),
    p.length + s.length < f₁ → p.length + s.length < f₂ →
    rmatchF f₁ p s = rmatchF f₂ p s := by
  intro f₁
  induction f₁ with
  | zero => intro f₂ p s h₁ _; omega
  | succ f ih =>
    intro f₂ p s h₁ h₂
    match f₂, h₂ with
    | g + 1, h₂ =>
      match p, s with
      | [], s => rfl
      | RTok.lit c :: p', [] => rfl
      | RTok.lit c :: p', x :: s' =>
        simp only [rmatchF]
        rw [ih g p' s' (by simp at h₁ ⊢; omega) (by simp at h₂ ⊢; omega)]
      | RTok.star :: p', [] =>
        simp only [rmatchF]
        rw [ih g p' [] (by simp at h₁ ⊢; omega) (by simp at h₂ ⊢; omega)]
      | RTok.star :: p', x :: s' =>
        simp only [rmatchF]
        rw [ih g p' (x :: s') (by simp at h₁ ⊢; omega) (by simp at h₂ ⊢; omega),
            ih g (RTok.star :: p') s' (by simp at h₁ ⊢; omega) (by simp at h₂ ⊢; omega)]

theorem rmatchF_lit_cons (f : Nat) (c : Char) (p : List RTok) (x : Char) (s : List Char) :
    rmatchF (f + 1) (RTok.lit c :: p) (x :: s) = (x == c && rmatchF f p s) := rfl

theorem rmatchF_star_eq (f : Nat) (p : List RTok) (s : List Char) :
    rmatchF (f + 1) (RTok.star :: p) s =
      (rmatchF f p s ||
        match s with
        | [] => false
        | x :: s' => !(x == '\n') && rmatchF f (RTok.star :: p) s') := rfl

theorem rmatch_nil_pat (s : List Char) : rmatch [] s = true := rfl

theorem rmatch_lit_nil (c : Char) (p : List RTok) : rmatch (RTok.lit c :: p) [] = false := rfl

theorem rmatch_lit_cons (c : Char) (p : List RTok) (x : Char) (s : List Char) :
    rmatch (RTok.lit c :: p) (x :: s) = (x == c && rmatch p s) := by
  have base : rmatch (RTok.lit c :: p) (x :: s) =
      rmatchF ((RTok.lit c :: p).length + (x :: s).length + 1) (RTok.lit c :: p) (x :: s) := rfl
  rw [base]
  simp only [List.length_cons]
  rw [rmatchF_lit_cons]
  have h : rmatchF (p.length + 1 + (s.length + 1)) p s = rmatch p s :=
    rmatchF_congr (p.length + 1 + (s.length + 1)) (p.length + s.length + 1) p s
      (by omega) (by omega)
  rw [h]

theorem rmatch_star (p : List RTok) (s : List Char) :
    rmatch (RTok.star :: p) s =
      (rmatch p s ||
        match s with
        | [] => false
        | x :: s' => !(x == '\n') && rmatch (RTok.star :: p) s') := by
  have base : rmatch (RTok.star :: p) s =
      rmatchF ((RTok.star :: p).length + s.length + 1) (RTok.star :: p) s := rfl
  cases s with
  | nil =>
    rw [base]
    simp only [List.length_cons, List.length_nil]
    rw [rmatchF_star_eq]
    have h : rmatchF (p.length + 1 + 0) p [] = rmatch p [] :=
      rmatchF_congr (p.length + 1 + 0) (p.length + [].length + 1) p []
        (by simp) (by simp)
    rw [h]
  | cons x s' =>
    rw [base]
    simp only [List.length_cons]
    rw [rmatchF_star_eq]
    have h1 : rmatchF (p.length + 1 + (s'.length + 1)) p (x :: s') = rmatch p (x :: s') :=
      rmatchF_congr (p.length + 1 + (s'.length + 1)) (p.length + (x :: s').length + 1) p (x :: s')
        (by simp only [List.length_cons]; omega) (by simp only [List.length_cons]; omega)
    have h2 : rmatchF (p.length + 1 + (s'.length + 1)) (RTok.star :: p) s' =
        rmatch (RTok.star :: p) s' :=
      rmatchF_congr (p.length + 1 + (s'.length + 1)) ((RTok.star :: p).length + s'.length + 1)
        (RTok.star :: p) s'
        (by simp only [List.length_cons]; omega) (by simp only [List.length_cons]; omega)
    rw [h1]
    dsimp only
    rw [h2]

/-- `re.match` applied to a `String`. -/
def reMatch (p : List RTok) (s : String) : Bool := rmatch p s.data

/-- The literal characters of `w` as regex tokens. -/
def litToks (w : String) : List RTok := w.data.map RTok.lit

/-- The pattern `w.*` (used by every NO_REPLY pattern). -/
def prefixPat (w : String) : List RTok := litToks w ++ [RTok.star]

/-- The pattern `.*w₁.*w₂.* ⋯` (used by every SUSPICIOUS_SENDERS pattern). -/
def starSep (parts : List String) : List RTok :=
  RTok.star :: (parts.map (fun w => litToks w ++ [RTok.star])).flatten

/-- The local-part prefixes of EmailFilter.NO_REPLY_PATTERNS
(`noreply@.*`, ... are all of the form `w.*`). -/
def NO_REPLY_PREFIXES : List String :=
  ["noreply@", "no-reply@", "donotreply@", "do-not-reply@", "notifications@",
   "alerts@", "automated@", "system@", "mailer-daemon@", "postmaster@"]

/-- EmailFilter.NO_REPLY_PATTERNS. -/
def NO_REPLY_PATTERNS : List (List RTok) := NO_REPLY_PREFIXES.map prefixPat

/-- EmailFilter.SUSPICIOUS_SENDERS: `.*@.*paypal\..*` etc. and `.*voita@.*`. -/
def SUSPICIOUS_SENDERS : List (List RTok) :=
  [starSep ["@", "paypal."],
   starSep ["@", "banking."],
   starSep ["@", "amazon."],
   starSep ["@", "ebay."],
   starSep ["@", "lottery."],
   starSep ["@", "winner."],
   starSep ["@", "prize."],
   starSep ["@", "kilpailu."],
   starSep ["@", "arvonta."],
   starSep ["voita@"]]

/-- EmailFilter.WHITELIST_DOMAINS. -/
def WHITELIST_DOMAINS : List String :=
  ["paypal.com", "amazon.com", "amazon.co.uk", "ebay.com", "google.com",
   "microsoft.com", "apple.com", "facebook.com", "linkedin.com"]

/-- EmailFilter.SPAM_KEYWORDS (in source order). -/
def SPAM_KEYWORDS : List String :=
  ["lottery", "winner", "million dollars", "inheritance", "bitcoin",
   "investment opportunity", "claim your", "free money", "jackpot",
   "casino", "get rich", "earn money fast", "prize winner",
   "voita", "arvonta", "kilpailu", "ilmainen", "voittaja",
   "act now", "limited time", "expires today", "urgent action required",
   "verify your account", "suspended account", "click here immediately",
   "confirm your identity", "update payment information",
   "xxx", "adult", "singles", "dating",
   "viagra", "cialis", "pharmacy", "pills", "medication"]

/-- EmailFilter.is_no_reply_address: lowercase the address, then `re.match`
each NO_REPLY pattern against it (anchored at the start of the whole string,
no angle-bracket extraction). -/
def is_no_reply_address (email_address : String) : Bool :=
  NO_REPLY_PATTERNS.any (fun p => reMatch p (pyLower email_address))

/-- The `re.search(r'<([^>]+)>', s)` step of is_suspicious_sender: leftmost
`<`, then at least one non-`>` character, then `>`; returns the group. -/
def searchAngle : List Char → Option (List Char)
  | [] => none
  | c :: rest =>
    if c == '<' then
      let g := rest.takeWhile (fun x => !(x == '>'))
      if !g.isEmpty && g.length < rest.length then some g
      else searchAngle rest
    else searchAngle rest

/-- The address-extraction prelude of is_suspicious_sender: if the field
contains both `<` and `>` and the search succeeds, keep only the bracketed
address. -/
def extractAngleAddr (s : String) : String :=
  if s.data.contains '<' && s.data.contains '>' then
    match searchAngle s.data with
    | some g => ⟨g⟩
    | none => s
  else s

/-- The whitelist test of is_suspicious_sender, lines 124-127: the lowered
(extracted) address ends with `@domain` for a whitelisted domain. -/
def from_whitelisted (email_address : String) : Bool :=
  WHITELIST_DOMAINS.any (fun d => pyEndsWith (pyLower (extractAngleAddr email_address)) ("@" ++ d))

/-- EmailFilter.is_suspicious_sender: extract a bracketed address if present,
lowercase, return false for whitelisted domains (checked first), else match
the suspicious patterns. -/
def is_suspicious_sender (email_address : String) : Bool :=
  let addr := extractAngleAddr email_address
  let email_lower := pyLower addr
  if WHITELIST_DOMAINS.any (fun d => pyEndsWith email_lower ("@" ++ d)) then false
  else SUSPICIOUS_SENDERS.any (fun p => reMatch p email_lower)

/-- The email_data dict, with the keys consulted by the modelled functions;
an absent key is `none` (the code reads every key with `.get(k, default)`). -/
structure InboundEmail where
  id : Option String := none
  subject : Option String := none
  body : Option String := none
  from_ : Option String := none
  category : Option String := none
deriving DecidableEq

/-- calculate_spam_score lines 157-159: +0.3 for a no-reply sender. -/
def noreply_points (from_address : String) : ℚ :=
  if is_no_reply_address from_address then 0.3 else 0

/-- calculate_spam_score lines 161-163: +0.5 for a suspicious sender. -/
def suspicious_points (from_address : String) : ℚ :=
  if is_suspicious_sender from_address then 0.5 else 0

/-- calculate_spam_score lines 166-171: the spam keywords found in subject or
body (iteration order = SPAM_KEYWORDS order). -/
def found_spam_keywords (subject body : String) : List String :=
  SPAM_KEYWORDS.filter (fun k => pyContains subject k || pyContains body k)

/-- calculate_spam_score lines 173-176: min(0.5, count*0.1) when any keyword
was found. -/
def keyword_points (subject body : String) : ℚ :=
  let n := (found_spam_keywords subject body).length
  if 0 < n then min 0.5 ((n : ℚ) * 0.1) else 0

/-- calculate_spam_score line 181: fraction of uppercase characters.
(The caller passes the already-lowercased subject — see `caps_heuristic_unreachable`.) -/
def caps_fraction (subject : String) : ℚ :=
  ((subject.data.countP (fun c => c.isUpper) : ℚ)) / ((subject.data.length : ℚ))

/-- calculate_spam_score lines 180-184: +0.2 if the subject is nonempty and
its uppercase fraction exceeds 0.5. -/
def caps_points (subject : String) : ℚ :=
  if subject.data.isEmpty then 0
  else if 1/2 < caps_fraction subject then 0.2 else 0

/-- calculate_spam_score line 187. -/
def SUSPICIOUS_EXTENSIONS : List String := [".exe", ".zip", ".rar", ".bat", ".cmd", ".scr"]

/-- calculate_spam_score line 194. -/
def URL_SHORTENERS : List String := ["bit.ly", "tinyurl.com", "goo.gl", "ow.ly", "t.co"]

/-- calculate_spam_score lines 187-191: +0.3 per suspicious extension
mentioned in the body. -/
def attachment_points (body : String) : ℚ :=
  SUSPICIOUS_EXTENSIONS.foldl (fun s ext => if pyContains body ext then s + 0.3 else s) 0

/-- calculate_spam_score lines 194-198: +0.2 per URL shortener in the body. -/
def shortener_points (body : String) : ℚ :=
  URL_SHORTENERS.foldl (fun s u => if pyContains body u then s + 0.2 else s) 0

/-- The `reasons` list built by calculate_spam_score, in append order. -/
def spam_reasons (subject body from_address : String) : List String :=
  (if is_no_reply_address from_address then ["No-reply address"] else []) ++
  (if is_suspicious_sender from_address then ["Suspicious sender pattern"] else []) ++
  (let found := found_spam_keywords subject body
   if 0 < found.length then
     ["Spam keywords found: " ++ String.intercalate ", " (found.take 5)]
   else []) ++
  (if subject.data.isEmpty then []
   else if 1/2 < caps_fraction subject then ["Excessive capitalization"] else []) ++
  (SUSPICIOUS_EXTENSIONS.filter (fun ext => pyContains body ext)).map
    (fun ext => "Suspicious attachment type: " ++ ext) ++
  (URL_SHORTENERS.filter (fun u => pyContains body u)).map
    (fun u => "URL shortener detected: " ++ u)

/-- EmailFilter.calculate_spam_score: lowercase subject/body/from, add the six
contributions in source order, cap the total at 1.0, and return the reasons. -/
def calculate_spam_score (email_data : InboundEmail) : ℚ × List String :=
  let subject := pyLower (getS email_data.subject)
  let body := pyLower (getS email_data.body)
  let from_address := pyLower (getS email_data.from_)
  let total :=
    noreply_points from_address + suspicious_points from_address +
    keyword_points subject body + caps_points subject +
    attachment_points body + shortener_points body
  (min 1 total, spam_reasons subject body from_address)

/-- should_skip_email line 236. -/
def PAYMENT_KEYWORDS : List String := ["receipt", "payment", "invoice", "transaction"]

/-- should_skip_email line 237. -/
def PAYMENT_DOMAINS : List String := ["paypal", "stripe", "square", "venmo"]

/-- Model of Python's `f"{x:.2f}"` on the score: exact decimal rendering with
two digits, rounding half up.  Only used inside a log string; no claim
depends on its exact value. -/
def formatQ2 (q : ℚ) : String :=
  let n : Nat := (⌊q * 100 + 1/2⌋).toNat
  toString (n / 100) ++ "." ++
    (let d := n % 100
     if d < 10 then "0" ++ toString d else toString d)

/-- EmailFilter.should_skip_email: no-reply hard skip, then the spam-score
threshold, then the payment-processor hard skip (first keyword in the subject,
then first matching processor token in the sender). -/
def should_skip_email (email_data : InboundEmail) (spam_threshold : ℚ) : Bool × String :=
  let from_address := getS email_data.from_
  if is_no_reply_address from_address then (true, "No-reply address")
  else
    let sr := calculate_spam_score email_data
    if spam_threshold ≤ sr.1 then
      (true, "High spam score (" ++ formatQ2 sr.1 ++ "): " ++ String.intercalate "; " sr.2)
    else
      let subject := pyLower (getS email_data.subject)
      match PAYMENT_KEYWORDS.findSome? (fun keyword =>
        if pyContains subject keyword then
          PAYMENT_DOMAINS.findSome? (fun domain =>
            if pyContains (pyLower from_address) domain then
              some ("Payment processor email (" ++ domain ++ ")")
            else none)
        else none) with
      | some reason => (true, reason)
      | none => (false, "")

/-! ### Helper lemmas about the score contributions -/

theorem le_foldl_ite_add {c : ℚ} (hc : 0 ≤ c) (q : String → Bool) :
    ∀ (l : List String) (acc : ℚ), acc ≤ l.foldl (fun s x => if q x then s + c else s) acc := by
  intro l
  induction l with
  | nil => intro acc; simp
  | cons a t ih =>
    intro acc
    simp only [List.foldl_cons]
    refine le_trans ?_ (ih _)
    cases h : q a
    · simp [h]
    · simp only [h, if_true]
      linarith

theorem noreply_points_nonneg (a : String) : 0 ≤ noreply_points a := by
  unfold noreply_points; split <;> norm_num

theorem suspicious_points_nonneg (a : String) : 0 ≤ suspicious_points a := by
  unfold suspicious_points; split <;> norm_num

theorem keyword_points_nonneg (s b : String) : 0 ≤ keyword_points s b := by
  unfold keyword_points
  dsimp only
  split
  · exact le_min (by norm_num) (by positivity)
  · exact le_refl 0

theorem caps_points_nonneg (s : String) : 0 ≤ caps_points s := by
  unfold caps_points
  split
  · exact le_refl 0
  · split <;> norm_num

theorem attachment_points_nonneg (b : String) : 0 ≤ attachment_points b := by
  exact le_foldl_ite_add (by norm_num) _ SUSPICIOUS_EXTENSIONS 0

theorem shortener_points_nonneg (b : String) : 0 ≤ shortener_points b := by
  exact le_foldl_ite_add (by norm_num) _ URL_SHORTENERS 0

/-- C1: for every email record, calculate_spam_score returns a score in
[0, 1]: every individual contribution is non-negative and the sum is clamped
with min(1, ·), so the final score is never negative and never exceeds 1. -/
theorem spam_score_bounded :
    (∀ a, 0 ≤ noreply_points a) ∧ (∀ a, 0 ≤ suspicious_points a) ∧
    (∀ s b, 0 ≤ keyword_points s b) ∧ (∀ s, 0 ≤ caps_points s) ∧
    (∀ b, 0 ≤ attachment_points b) ∧ (∀ b, 0 ≤ shortener_points b) ∧
    (∀ e : InboundEmail,
      0 ≤ (calculate_spam_score e).1 ∧ (calculate_spam_score e).1 ≤ 1) := by
  refine ⟨noreply_points_nonneg, suspicious_points_nonneg, keyword_points_nonneg,
    caps_points_nonneg, attachment_points_nonneg, shortener_points_nonneg, fun e => ?_⟩
  unfold calculate_spam_score
  constructor
  · refine le_min (by norm_num) ?_
    have h1 := noreply_points_nonneg (pyLower (getS e.from_))
    have h2 := suspicious_points_nonneg (pyLower (getS e.from_))
    have h3 := keyword_points_nonneg (pyLower (getS e.subject)) (pyLower (getS e.body))
    have h4 := caps_points_nonneg (pyLower (getS e.subject))
    have h5 := attachment_points_nonneg (pyLower (getS e.body))
    have h6 := shortener_points_nonneg (pyLower (getS e.body))
    linarith
  · exact min_le_left _ _

theorem findSome?_isSome_of_mem {α β : Type} (l : List α) (f : α → Option β) (a : α)
    (ha : a ∈ l) (hf : (f a).isSome = true) : (l.findSome? f).isSome = true := by
  induction l with
  | nil => cases ha
  | cons x t ih =>
    rcases List.mem_cons.mp ha with rfl | h
    · rw [List.findSome?_cons]
      cases hfa : f a
      · rw [hfa] at hf; cases hf
      · simp
    · rw [List.findSome?_cons]
      cases hfa : f x
      · exact ih h
      · simp

/-- C2: an email whose (lowercased) subject contains a payment keyword and
whose (lowercased) sender address contains a payment-processor token is
always skipped by should_skip_email, for every caller-supplied threshold:
every branch that returns before the payment check also returns skip=true. -/
theorem payment_processor_hard_skip (e : InboundEmail) (thr : ℚ)
    (hkw : ∃ kw ∈ PAYMENT_KEYWORDS, pyContains (pyLower (getS e.subject)) kw = true)
    (hdom : ∃ d ∈ PAYMENT_DOMAINS, pyContains (pyLower (getS e.from_)) d = true) :
    (should_skip_email e thr).1 = true := by
  obtain ⟨kw, hkwm, hkwc⟩ := hkw
  obtain ⟨d, hdm, hdc⟩ := hdom
  unfold should_skip_email
  dsimp only
  split
  · rfl
  · split
    · rfl
    · have hs : (PAYMENT_KEYWORDS.findSome? (fun keyword =>
          if pyContains (pyLower (getS e.subject)) keyword = true then
            PAYMENT_DOMAINS.findSome? (fun domain =>
              if pyContains (pyLower (getS e.from_)) domain = true then
                some ("Payment processor email (" ++ domain ++ ")")
              else none)
          else none)).isSome = true := by
        refine findSome?_isSome_of_mem _ _ kw hkwm ?_
        dsimp only
        rw [if_pos hkwc]
        refine findSome?_isSome_of_mem _ _ d hdm ?_
        dsimp only
        rw [if_pos hdc]
        rfl
      obtain ⟨r, hr⟩ := Option.isSome_iff_exists.mp hs
      rw [hr]

/-- C2 witness: a receipt email from a PayPal address is skipped. -/
theorem payment_processor_hard_skip_witness :
    (∃ kw ∈ PAYMENT_KEYWORDS,
        pyContains (pyLower (getS (some "Your receipt"))) kw = true) ∧
    (∃ d ∈ PAYMENT_DOMAINS,
        pyContains (pyLower (getS (some "service@paypal.com"))) d = true) ∧
    (should_skip_email
        { subject := some "Your receipt", from_ := some "service@paypal.com" } 0.5).1 = true :=
  ⟨by with_unfolding_all decide, by with_unfolding_all decide,
   payment_processor_hard_skip
     { subject := some "Your receipt", from_ := some "service@paypal.com" } 0.5
     (by with_unfolding_all decide) (by with_unfolding_all decide)⟩

/-- C3: a sender whose (extracted, lowercased) address ends in `@domain` for a
whitelisted domain is never suspicious — the whitelist check runs before the
pattern check — so the +0.5 contribution is suppressed; a non-whitelisted
address matching a brand-impersonation pattern does receive the +0.5. -/
theorem whitelist_suppresses_suspicious :
    (∀ addr, from_whitelisted addr = true →
        is_suspicious_sender addr = false ∧ suspicious_points addr = 0) ∧
    is_suspicious_sender "user@paypal.security-alert.com" = true ∧
    suspicious_points "user@paypal.security-alert.com" = 0.5 := by
  have hconc : is_suspicious_sender "user@paypal.security-alert.com" = true := by
    with_unfolding_all decide
  refine ⟨fun addr h => ?_, hconc, ?_⟩
  · unfold from_whitelisted at h
    have hs : is_suspicious_sender addr = false := by
      unfold is_suspicious_sender
      simp only [h, if_true]
    exact ⟨hs, by simp [suspicious_points, hs]⟩
  · simp [suspicious_points, hconc]

/-- C3 witness: `user@paypal.com` is whitelisted and not suspicious. -/
theorem whitelist_suppresses_suspicious_witness :
    from_whitelisted "user@paypal.com" = true ∧
    is_suspicious_sender "user@paypal.com" = false ∧
    suspicious_points "user@paypal.com" = 0 :=
  ⟨by with_unfolding_all decide,
   (whitelist_suppresses_suspicious.1 "user@paypal.com" (by with_unfolding_all decide)).1,
   (whitelist_suppresses_suspicious.1 "user@paypal.com" (by with_unfolding_all decide)).2⟩

/-- C8: the capitalization heuristic is unreachable.  The source lowercases
the subject (line 152) before computing the uppercase fraction (line 181), so
for "HELLO WORLD" (uppercase fraction 10/11 > 0.5) the returned score is 0
with no reasons, although the spec requires the +0.2 contribution. -/
theorem caps_heuristic_unreachable :
    (1 : ℚ)/2 < caps_fraction "HELLO WORLD" ∧
    calculate_spam_score
      { subject := some "HELLO WORLD", body := some "hi there",
        from_ := some "friend@example.com" } = (0, []) :=
  ⟨by with_unfolding_all decide, by with_unfolding_all decide⟩

theorem rmatch_litToks_star (cs : List Char) :
    ∀ s : List Char, rmatch (cs.map RTok.lit ++ [RTok.star]) s = cs.isPrefixOf s := by
  induction cs with
  | nil =>
    intro s
    rw [List.map_nil, List.nil_append, rmatch_star]
    simp [rmatch_nil_pat]
  | cons c cs ih =>
    intro s
    cases s with
    | nil =>
      rw [List.map_cons, List.cons_append, rmatch_lit_nil]
      rfl
    | cons x s' =>
      rw [List.map_cons, List.cons_append, rmatch_lit_cons, ih, List.isPrefixOf_cons₂,
        Bool.beq_comm]

theorem any_prefixPat (ws : List String) (t : String) :
    (ws.map prefixPat).any (fun p => reMatch p t) = ws.any (fun w => pyStartsWith t w) := by
  induction ws with
  | nil => rfl
  | cons w ws ih =>
    rw [List.map_cons, List.any_cons, List.any_cons, ih]
    have hw : reMatch (prefixPat w) t = pyStartsWith t w := by
      simp only [reMatch, prefixPat, litToks, pyStartsWith, rmatch_litToks_star]
    rw [hw]

/-- C10: is_no_reply_address matches its patterns only against the start of
the whole `from` string (it is exactly a prefix test on the lowercased field,
with no angle-bracket extraction), so a display-name form such as
`Service <noreply@example.com>` is not detected — the no-reply hard skip does
not fire — although the embedded bare address is a no-reply address; by
contrast is_suspicious_sender does extract the bracketed address first. -/
theorem no_reply_match_anchored :
    (∀ s : String,
        is_no_reply_address s = NO_REPLY_PREFIXES.any (fun w => pyStartsWith (pyLower s) w)) ∧
    is_no_reply_address "Service <noreply@example.com>" = false ∧
    is_no_reply_address "noreply@example.com" = true ∧
    should_skip_email
      { subject := some "Hello", body := some "Hi",
        from_ := some "Service <noreply@example.com>" } (1/2) = (false, "") ∧
    is_suspicious_sender "Service <user@paypal.fake-security.com>" = true := by
  refine ⟨fun s => ?_, by with_unfolding_all decide, by with_unfolding_all decide,
    by with_unfolding_all decide, by with_unfolding_all decide⟩
  unfold is_no_reply_address NO_REPLY_PATTERNS
  exact any_prefixPat NO_REPLY_PREFIXES (pyLower s)

/-! ### EmailProcessor: categorization, sentiment, priority -/

/-- The `categories` dict of _categorize_email, in Python insertion order. -/
def CATEGORY_TABLES : List (String × List String) :=
  [("complaint",
    ["complaint", "disappointed", "unhappy", "terrible", "awful", "poor",
     "unsatisfied", "frustrated", "upset", "angry", "annoyed", "dissatisfied",
     "problem with", "not working", "does not work", "failed", "failing",
     "issue with", "bad experience", "bad service", "poor quality"]),
   ("product_support",
    ["login", "password", "error", "not working", "help", "how to", "does not work",
     "broken", "bug", "technical", "support", "assistance", "problem",
     "troubleshoot", "issue", "fix", "solution"]),
   ("feature_request",
    ["feature", "suggestion", "improve", "enhancement", "add", "missing",
     "should have", "would be nice", "could you add", "please include",
     "consider adding", "new feature", "functionality", "capability"]),
   ("billing_question",
    ["bill", "charge", "payment", "refund", "subscription", "price", "cost",
     "discount", "invoice", "credit card", "transaction", "receipt",
     "cancellation", "renewal", "billing", "charged", "fee", "pricing"]),
   ("general_feedback",
    ["thank", "great", "love", "awesome", "excellent", "amazing", "good",
     "appreciate", "feedback", "enjoyed", "wonderful", "fantastic",
     "satisfied", "helpful", "impressive"]),
   ("urgent_request",
    ["urgent", "emergency", "asap", "immediate", "critical", "important",
     "time sensitive", "deadline", "quickly", "rush", "priority", "immediately",
     "as soon as possible", "promptly", "fast", "today"]),
   ("spam",
    ["lottery", "million dollars", "bitcoin", "investment opportunity",
     "inheritance", "claim your", "free money",
     "winner", "jackpot", "casino", "earn money fast", "get rich"])]

/-- The `priority_order` list of _categorize_email. -/
def PRIORITY_ORDER : List String :=
  ["urgent_request", "complaint", "billing_question", "product_support",
   "feature_request", "spam", "general_feedback", "customer_inquiry"]

/-- The analysed text: `f"{subject} {body}"` with both parts lowercased. -/
def category_text (e : InboundEmail) : String :=
  pyLower (getS e.subject) ++ " " ++ pyLower (getS e.body)

/-- The `category_matches` dict: per category, the keywords present in the
text (substring match, iteration order preserved). -/
def category_matches (text : String) : List (String × List String) :=
  CATEGORY_TABLES.map (fun ct => (ct.1, ct.2.filter (fun k => pyContains text k)))

/-- The `matched_keywords` accumulator: all matched keywords across all
categories, in dict order. -/
def matched_keywords_all (text : String) : List String :=
  ((category_matches text).map Prod.snd).flatten

/-- EmailProcessor._categorize_email: first category of `priority_order`
whose entry in `category_matches` is non-empty; `customer_inquiry` with an
empty list when nothing matched. -/
def _categorize_email (e : InboundEmail) : String × List String :=
  match PRIORITY_ORDER.find? (fun c =>
      match (category_matches (category_text e)).lookup c with
      | some l => !l.isEmpty
      | none => false) with
  | some c => (c, matched_keywords_all (category_text e))
  | none => ("customer_inquiry", [])

/-- The claim's fixed priority order (without the default). -/
def claim_priority_order : List String :=
  ["urgent_request", "complaint", "billing_question", "product_support",
   "feature_request", "spam", "general_feedback"]

/-- The claim's description of categorization, stated independently of the
code: the first category in the fixed order with at least one keyword
substring-matching the text wins; otherwise `customer_inquiry`. -/
def claim_category (text : String) : String :=
  (claim_priority_order.find? (fun c =>
      ((CATEGORY_TABLES.lookup c).getD []).any (fun k => pyContains text k))).getD
    "customer_inquiry"

theorem filter_isEmpty_eq_not_any (q : String → Bool) (l : List String) :
    (l.filter q).isEmpty = !(l.any q) := by
  induction l with
  | nil => rfl
  | cons a t ih => cases h : q a <;> simp [List.filter_cons, h, ih]

theorem lookup_map_filter (tables : List (String × List String)) (q : String → Bool)
    (c : String) :
    (tables.map (fun ct => (ct.1, ct.2.filter q))).lookup c
      = (tables.lookup c).map (fun kws => kws.filter q) := by
  induction tables with
  | nil => rfl
  | cons kt rest ih =>
    obtain ⟨k, kws⟩ := kt
    rw [List.map_cons]
    cases h : c == k <;> simp [List.lookup_cons, h, ih]

theorem pred_code_eq_claim (text c : String) :
    (match (category_matches text).lookup c with
     | some l => !l.isEmpty
     | none => false)
      = ((CATEGORY_TABLES.lookup c).getD []).any (fun k => pyContains text k) := by
  unfold category_matches
  rw [lookup_map_filter]
  cases h : CATEGORY_TABLES.lookup c with
  | none => simp [h]
  | some kws => simp [h, filter_isEmpty_eq_not_any]

theorem lookup_mem_pair {β : Type} (l : List (String × β)) (k : String) (v : β)
    (h : l.lookup k = some v) : (k, v) ∈ l := by
  induction l with
  | nil => cases h
  | cons p t ih =>
    obtain ⟨k', v'⟩ := p
    rw [List.lookup_cons] at h
    cases hk : k == k'
    · rw [hk] at h
      exact List.mem_cons_of_mem _ (ih h)
    · rw [hk] at h
      cases h
      have : k = k' := eq_of_beq hk
      subst this
      exact List.mem_cons_self _ _

/-- C4: the category assigned by _categorize_email is the first category in
the fixed order urgent_request > complaint > billing_question >
product_support > feature_request > spam > general_feedback with at least one
substring match in the lowercased subject+body; with no match at all the
result is `customer_inquiry` with an empty keyword list; in particular a text
with both an urgent keyword and a complaint keyword classifies as
urgent_request. -/
theorem categorize_priority_order :
    (∀ e : InboundEmail, (_categorize_email e).1 = claim_category (category_text e)) ∧
    (∀ e : InboundEmail,
        (∀ ct ∈ CATEGORY_TABLES, ∀ k ∈ ct.2, pyContains (category_text e) k = false) →
        _categorize_email e = ("customer_inquiry", [])) ∧
    (_categorize_email { subject := some "Urgent complaint" }).1 = "urgent_request" := by
  refine ⟨fun e => ?_, fun e h => ?_, by with_unfolding_all decide⟩
  · have hpred : (fun c =>
        match (category_matches (category_text e)).lookup c with
        | some l => !l.isEmpty
        | none => false)
        = (fun c => ((CATEGORY_TABLES.lookup c).getD []).any
            (fun k => pyContains (category_text e) k)) :=
      funext fun c => pred_code_eq_claim (category_text e) c
    unfold _categorize_email claim_category
    rw [hpred]
    have hlast : (CATEGORY_TABLES.lookup "customer_inquiry") = none := by
      with_unfolding_all decide
    have hP : ((CATEGORY_TABLES.lookup "customer_inquiry").getD []).any
        (fun k => pyContains (category_text e) k) = false := by
      rw [hlast]; rfl
    have h2 : List.find? (fun c => ((CATEGORY_TABLES.lookup c).getD []).any
        (fun k => pyContains (category_text e) k)) ["customer_inquiry"] = none := by
      simp [List.find?, hP]
    rw [show PRIORITY_ORDER = claim_priority_order ++ ["customer_inquiry"] from rfl,
      List.find?_append, h2]
    cases hf : claim_priority_order.find? (fun c =>
        ((CATEGORY_TABLES.lookup c).getD []).any
          (fun k => pyContains (category_text e) k)) <;>
      simp [hf, Option.or]
  · have hnone : PRIORITY_ORDER.find? (fun c =>
        match (category_matches (category_text e)).lookup c with
        | some l => !l.isEmpty
        | none => false) = none := by
      apply List.find?_eq_none.mpr
      intro c hc
      rw [pred_code_eq_claim]
      intro hany
      obtain ⟨k, hk, hq⟩ := List.any_eq_true.mp hany
      cases hl : CATEGORY_TABLES.lookup c with
      | none => rw [hl] at hk; cases hk
      | some kws =>
        rw [hl] at hk
        have hmem := lookup_mem_pair CATEGORY_TABLES c kws hl
        have := h (c, kws) hmem k hk
        rw [this] at hq
        cases hq
    unfold _categorize_email
    rw [hnone]

/-- C4 witness: an email with no matching keyword at all is classified
`customer_inquiry` with an empty keyword list. -/
theorem categorize_priority_order_witness :
    _categorize_email {} = ("customer_inquiry", []) :=
  categorize_priority_order.2.1 {} (by with_unfolding_all decide)

/-- The positive word list of _analyze_sentiment. -/
def POSITIVE_WORDS : List String :=
  ["good", "great", "excellent", "wonderful", "amazing", "love", "like",
   "happy", "pleased", "satisfied", "thank", "thanks", "helpful", "appreciate",
   "awesome", "fantastic", "perfect", "best", "impressed"]

/-- The negative word list of _analyze_sentiment. -/
def NEGATIVE_WORDS : List String :=
  ["bad", "poor", "terrible", "awful", "horrible", "disappointed", "upset",
   "angry", "unhappy", "not working", "problem", "issue", "broken", "error",
   "failed", "wrong", "worst", "hate", "dislike", "annoyed", "frustrating"]

/-- EmailProcessor._analyze_sentiment: count positive and negative words
(substring match in the lowercased subject+body) and compare. -/
def _analyze_sentiment (email_data : InboundEmail) : String :=
  let text := pyLower (getS email_data.subject ++ " " ++ getS email_data.body)
  let positive_count := POSITIVE_WORDS.countP (fun w => pyContains text w)
  let negative_count := NEGATIVE_WORDS.countP (fun w => pyContains text w)
  if negative_count < positive_count then "positive"
  else if positive_count < negative_count then "negative"
  else "neutral"

/-- EmailProcessor._determine_priority (the email_data parameter is unused in
the source as well). -/
def _determine_priority (_email_data : InboundEmail) (category sentiment : String) : String :=
  if ["complaint", "urgent_request"].contains category then "high"
  else if ["product_support", "billing_question"].contains category
      || sentiment == "negative" then "medium"
  else "low"

/-- C9: the scoring and classification functions are total Lean functions (no
exception path exists in the model); an absent subject/body/from behaves as
the empty string and degrades to the conservative defaults: zero score with
no reasons, no skip at the default threshold, `customer_inquiry` with no
keywords, `neutral` sentiment and `low` priority; and the empty subject takes
the guarded branch of the capitalization heuristic (no division), yielding a
zero contribution. -/
theorem calculate_only_text_fields (e e' : InboundEmail) (hs : e.subject = e'.subject)
    (hb : e.body = e'.body) (hf : e.from_ = e'.from_) :
    calculate_spam_score e = calculate_spam_score e' := by
  unfold calculate_spam_score
  rw [hs, hb, hf]

theorem should_skip_only_text_fields (e e' : InboundEmail) (hs : e.subject = e'.subject)
    (hb : e.body = e'.body) (hf : e.from_ = e'.from_) (thr : ℚ) :
    should_skip_email e thr = should_skip_email e' thr := by
  unfold should_skip_email
  rw [hs, hf, calculate_only_text_fields e e' hs hb hf]

theorem categorize_only_text_fields (e e' : InboundEmail) (hs : e.subject = e'.subject)
    (hb : e.body = e'.body) :
    _categorize_email e = _categorize_email e' := by
  unfold _categorize_email category_text
  rw [hs, hb]

theorem sentiment_only_text_fields (e e' : InboundEmail) (hs : e.subject = e'.subject)
    (hb : e.body = e'.body) :
    _analyze_sentiment e = _analyze_sentiment e' := by
  unfold _analyze_sentiment
  rw [hs, hb]

theorem heuristics_total_defaults :
    (∀ e : InboundEmail, e.subject = none → e.body = none → e.from_ = none →
        calculate_spam_score e = (0, []) ∧
        should_skip_email e (1/2) = (false, "") ∧
        _categorize_email e = ("customer_inquiry", []) ∧
        _analyze_sentiment e = "neutral" ∧
        _determine_priority e "customer_inquiry" "neutral" = "low") ∧
    caps_points "" = 0 := by
  refine ⟨fun e h1 h2 h3 => ?_, rfl⟩
  refine ⟨?_, ?_, ?_, ?_, ?_⟩
  · rw [calculate_only_text_fields e {} (by rw [h1]) (by rw [h2]) (by rw [h3])]
    with_unfolding_all decide
  · rw [should_skip_only_text_fields e {} (by rw [h1]) (by rw [h2]) (by rw [h3]) (1/2)]
    with_unfolding_all decide
  · rw [categorize_only_text_fields e {} (by rw [h1]) (by rw [h2])]
    with_unfolding_all decide
  · rw [sentiment_only_text_fields e {} (by rw [h1]) (by rw [h2])]
    with_unfolding_all decide
  · with_unfolding_all rfl

/-- C9 witness: the defaults at the all-absent email record. -/
theorem heuristics_total_defaults_witness :
    calculate_spam_score {} = (0, []) ∧
    _categorize_email {} = ("customer_inquiry", []) ∧
    _analyze_sentiment {} = "neutral" :=
  ⟨(heuristics_total_defaults.1 {} rfl rfl rfl).1,
   (heuristics_total_defaults.1 {} rfl rfl rfl).2.2.1,
   (heuristics_total_defaults.1 {} rfl rfl rfl).2.2.2.1⟩

/-! ### EmailTracker: the processed-emails ledger -/

/-- One value of the `emails` dict of the tracker (the record written by
mark_as_processed lines 101-107). -/
structure LedgerRecord where
  processed_at : Int
  subject : String
  from_ : String
  category : String
  response_sent : Bool
deriving DecidableEq

/-- The persisted tracker state: the `emails` dict (as an association list
with dict semantics) and the `last_cleanup` timestamp. -/
structure TrackerState where
  emails : List (String × LedgerRecord)
  last_cleanup : Int
deriving DecidableEq

/-- The key list of an association list (the dict's keys, in order). -/
def keys {α : Type} (l : List (String × α)) : List String := l.map Prod.fst

theorem keys_nil {α : Type} : keys ([] : List (String × α)) = [] := rfl

theorem keys_cons {α : Type} (p : String × α) (t : List (String × α)) :
    keys (p :: t) = p.1 :: keys t := rfl

/-- Python dict update `d[k] = v`: replace the value at an existing key in
place, else append the new pair at the end. -/
def dictInsert {α : Type} : List (String × α) → String → α → List (String × α)
  | [], k, v => [(k, v)]
  | (k', v') :: t, k, v =>
    if k' == k then (k', v) :: t else (k', v') :: dictInsert t k v

/-- Python `for k in ks: del d[k]`: erase the entry of each listed key. -/
def removeKeys {α : Type} (l : List (String × α)) (ks : List String) : List (String × α) :=
  ks.foldl (fun acc k => acc.eraseP (fun p => p.1 == k)) l

/-- EmailTracker.is_processed: `email_id in self.processed_emails["emails"]`
(a missing id, `None` in Python, is never a key). -/
def is_processed (st : TrackerState) (email_id : Option String) : Bool :=
  match email_id with
  | some i => (st.emails.lookup i).isSome
  | none => false

/-- EmailTracker.count_sender_emails: records inside the trailing window whose
`from` matches the sender case-insensitively. -/
def count_sender_emails (st : TrackerState) (sender : String) (hours : Nat) (now : Int) : Nat :=
  let cutoff_time := now - (hours : Int) * 3600
  let sender_lower := pyLower sender
  st.emails.countP (fun p =>
    decide (cutoff_time ≤ p.2.processed_at) && (pyLower p.2.from_ == sender_lower))

/-- The ids collected by the first loop of _cleanup_old_entries: entries with
`processed_at` strictly before the retention cutoff. -/
def stale_keys (max_history_days : Nat) (st : TrackerState) (now : Int) : List String :=
  (st.emails.filter
    (fun p => decide (p.2.processed_at < now - (max_history_days : Int) * 86400))).map Prod.fst

/-- EmailTracker._cleanup_old_entries: collect the stale ids, delete each, and
refresh `last_cleanup` when anything was removed. -/
def _cleanup_old_entries (max_history_days : Nat) (st : TrackerState) (now : Int) : TrackerState :=
  let emails_to_remove := stale_keys max_history_days st now
  let emails' := removeKeys st.emails emails_to_remove
  if emails_to_remove.isEmpty then { st with emails := emails' }
  else { emails := emails', last_cleanup := now }

/-- The record written by mark_as_processed: timestamp, first 100 characters
of the subject, sender, category (default "unknown"), response flag. -/
def ledger_entry (email_data : InboundEmail) (response_sent : Bool) (now : Int) : LedgerRecord :=
  { processed_at := now
    subject := (getS email_data.subject).take 100
    from_ := getS email_data.from_
    category := email_data.category.getD "unknown"
    response_sent := response_sent }

/-- EmailTracker.mark_as_processed: upsert the record, then run the periodic
cleanup when the last cleanup is at least one day old (timedelta.days ≥ 1). -/
def mark_as_processed (max_history_days : Nat) (st : TrackerState) (email_id : String)
    (email_data : InboundEmail) (response_sent : Bool) (now : Int) : TrackerState :=
  let st1 : TrackerState :=
    { st with emails := dictInsert st.emails email_id (ledger_entry email_data response_sent now) }
  if 1 ≤ (now - st1.last_cleanup).fdiv 86400 then _cleanup_old_entries max_history_days st1 now
  else st1

/-- A sequence of mark_as_processed calls (id, email, response_sent, now). -/
def applyMarks (max_history_days : Nat) (st : TrackerState)
    (calls : List (String × InboundEmail × Bool × Int)) : TrackerState :=
  calls.foldl
    (fun s c => mark_as_processed max_history_days s c.1 c.2.1 c.2.2.1 c.2.2.2) st

/-! ### Association-list lemmas (dict semantics) -/

theorem mem_keys_of_mem {α : Type} {l : List (String × α)} {p : String × α} (h : p ∈ l) :
    p.1 ∈ keys l := List.mem_map_of_mem Prod.fst h

theorem key_unique {α : Type} {l : List (String × α)} (h : (keys l).Nodup)
    {p q : String × α} (hp : p ∈ l) (hq : q ∈ l) (hkey : p.1 = q.1) : p = q := by
  induction l with
  | nil => cases hp
  | cons a t ih =>
    rw [keys_cons] at h
    have h1 : a.1 ∉ keys t := (List.nodup_cons.mp h).1
    have h2 : (keys t).Nodup := (List.nodup_cons.mp h).2
    rcases List.mem_cons.mp hp with rfl | hp'
    · rcases List.mem_cons.mp hq with rfl | hq'
      · rfl
      · exact absurd (hkey ▸ mem_keys_of_mem hq') h1
    · rcases List.mem_cons.mp hq with rfl | hq'
      · exact absurd (hkey ▸ mem_keys_of_mem hp') h1
      · exact ih h2 hp' hq'

theorem lookup_eq_none_iff {α : Type} (l : List (String × α)) (k : String) :
    l.lookup k = none ↔ k ∉ keys l := by
  induction l with
  | nil => simp [keys_nil]
  | cons p t ih =>
    obtain ⟨k', v'⟩ := p
    by_cases h : k = k'
    · subst h
      simp [List.lookup_cons, keys_cons]
    · have hb : (k == k') = false := by simp [h]
      simp [List.lookup_cons, hb, ih, keys_cons, h]

theorem mem_keys_of_lookup {α : Type} {l : List (String × α)} {k : String} {v : α}
    (h : l.lookup k = some v) : k ∈ keys l := by
  by_contra hk
  rw [(lookup_eq_none_iff l k).mpr hk] at h
  cases h

theorem keys_dictInsert {α : Type} (l : List (String × α)) (k : String) (v : α) :
    keys (dictInsert l k v) = if k ∈ keys l then keys l else keys l ++ [k] := by
  induction l with
  | nil => simp [dictInsert, keys]
  | cons p t ih =>
    obtain ⟨k', v'⟩ := p
    by_cases h : k' = k
    · subst h
      simp [dictInsert, keys_cons]
    · have hb : (k' == k) = false := by simp [h]
      by_cases hm : k ∈ keys t <;>
        simp [dictInsert, hb, keys_cons, ih, hm, Ne.symm h]

theorem nodup_keys_dictInsert {α : Type} (l : List (String × α)) (k : String) (v : α)
    (h : (keys l).Nodup) : (keys (dictInsert l k v)).Nodup := by
  rw [keys_dictInsert]
  by_cases hm : k ∈ keys l
  · rw [if_pos hm]; exact h
  · rw [if_neg hm]
    simp [List.nodup_append, h, hm]

theorem lookup_dictInsert {α : Type} (l : List (String × α)) (k : String) (v : α) :
    (dictInsert l k v).lookup k = some v := by
  induction l with
  | nil => simp [dictInsert, List.lookup_cons]
  | cons p t ih =>
    obtain ⟨k', v'⟩ := p
    by_cases h : k' = k
    · subst h
      simp [dictInsert, List.lookup_cons]
    · have hb : (k' == k) = false := by simp [h]
      have hb' : (k == k') = false := by simp [Ne.symm h]
      simp [dictInsert, hb, List.lookup_cons, hb', ih]

theorem countP_key {α : Type} (l : List (String × α)) (k : String) (h : (keys l).Nodup) :
    l.countP (fun p => p.1 == k) = if k ∈ keys l then 1 else 0 := by
  induction l with
  | nil => simp [keys_nil]
  | cons p t ih =>
    obtain ⟨k', v'⟩ := p
    rw [keys_cons] at h
    have h1 : k' ∉ keys t := (List.nodup_cons.mp h).1
    have h2 : (keys t).Nodup := (List.nodup_cons.mp h).2
    rw [List.countP_cons]
    by_cases hk : k' = k
    · subst hk
      simp [ih h2, h1, keys_cons]
    · simp [ih h2, keys_cons, hk, Ne.symm hk]

theorem lookup_eraseP_ne {α : Type} (l : List (String × α)) (k k' : String) (h : k ≠ k') :
    (l.eraseP (fun p => p.1 == k')).lookup k = l.lookup k := by
  induction l with
  | nil => rfl
  | cons p t ih =>
    obtain ⟨k'', v⟩ := p
    by_cases h2 : k'' = k'
    · subst h2
      have hck : (k == k'') = false := by simp [h]
      simp [List.eraseP_cons, List.lookup_cons, hck]
    · have hb : (k'' == k') = false := by simp [h2]
      simp only [List.eraseP_cons, hb, cond_false]
      by_cases h3 : k = k''
      · subst h3
        simp [List.lookup_cons]
      · have hck : (k == k'') = false := by simp [h3]
        simp [List.lookup_cons, hck, ih]

theorem lookup_eraseP_self {α : Type} (l : List (String × α)) (k : String)
    (h : (keys l).Nodup) : (l.eraseP (fun p => p.1 == k)).lookup k = none := by
  induction l with
  | nil => rfl
  | cons p t ih =>
    obtain ⟨k', v⟩ := p
    rw [keys_cons] at h
    have h1 : k' ∉ keys t := (List.nodup_cons.mp h).1
    have h2 : (keys t).Nodup := (List.nodup_cons.mp h).2
    by_cases hk : k' = k
    · subst hk
      simp only [List.eraseP_cons, beq_self_eq_true, cond_true]
      exact (lookup_eq_none_iff t k').mpr h1
    · have hb : (k' == k) = false := by simp [hk]
      have hb' : (k == k') = false := by simp [Ne.symm hk]
      simp [List.eraseP_cons, hb, List.lookup_cons, hb', ih h2]

theorem nodup_keys_eraseP {α : Type} (l : List (String × α)) (q : String × α → Bool)
    (h : (keys l).Nodup) : (keys (l.eraseP q)).Nodup :=
  List.Nodup.sublist ((List.eraseP_sublist l).map Prod.fst) h

theorem removeKeys_sublist {α : Type} (ks : List String) :
    ∀ l : List (String × α), List.Sublist (removeKeys l ks) l := by
  induction ks with
  | nil => intro l; exact List.Sublist.refl l
  | cons k ks ih =>
    intro l
    exact (ih _).trans (List.eraseP_sublist l)

theorem nodup_keys_removeKeys {α : Type} (l : List (String × α)) (ks : List String)
    (h : (keys l).Nodup) : (keys (removeKeys l ks)).Nodup :=
  List.Nodup.sublist ((removeKeys_sublist ks l).map Prod.fst) h

theorem lookup_removeKeys {α : Type} (ks : List String) :
    ∀ (l : List (String × α)), (keys l).Nodup → ∀ k : String,
    (removeKeys l ks).lookup k = if k ∈ ks then none else l.lookup k := by
  induction ks with
  | nil => intro l _ k; simp [removeKeys]
  | cons k' ks ih =>
    intro l h k
    have step : removeKeys l (k' :: ks) = removeKeys (l.eraseP (fun p => p.1 == k')) ks := rfl
    rw [step, ih _ (nodup_keys_eraseP l _ h) k]
    by_cases hmem : k ∈ ks
    · simp [hmem]
    · rw [if_neg hmem]
      by_cases hk : k = k'
      · subst hk
        rw [lookup_eraseP_self l k h]
        simp
      · rw [lookup_eraseP_ne l k k' hk]
        simp [hk, hmem]

/-! ### Cleanup and mark lemmas -/

theorem cleanup_emails_eq (days : Nat) (st : TrackerState) (now : Int) :
    (_cleanup_old_entries days st now).emails
      = removeKeys st.emails (stale_keys days st now) := by
  unfold _cleanup_old_entries
  dsimp only
  split <;> rfl

theorem mem_stale_keys (days : Nat) (st : TrackerState) (now : Int)
    (h : (keys st.emails).Nodup) (k : String) (v : LedgerRecord)
    (hl : st.emails.lookup k = some v) :
    k ∈ stale_keys days st now ↔ v.processed_at < now - (days : Int) * 86400 := by
  unfold stale_keys
  constructor
  · intro hk
    obtain ⟨p, hp, hpk⟩ := List.mem_map.mp hk
    obtain ⟨hpl, hpc⟩ := List.mem_filter.mp hp
    have hkv : (k, v) ∈ st.emails := lookup_mem_pair _ _ _ hl
    have hpq : p = (k, v) := key_unique h hpl hkv (by rw [hpk])
    rw [hpq] at hpc
    exact of_decide_eq_true hpc
  · intro hv
    exact List.mem_map.mpr ⟨(k, v),
      List.mem_filter.mpr ⟨lookup_mem_pair _ _ _ hl, by simpa using hv⟩, rfl⟩

theorem nodup_keys_cleanup (days : Nat) (st : TrackerState) (now : Int)
    (h : (keys st.emails).Nodup) :
    (keys (_cleanup_old_entries days st now).emails).Nodup := by
  rw [cleanup_emails_eq]
  exact nodup_keys_removeKeys _ _ h

theorem mark_emails_lookup_self (days : Nat) (st : TrackerState) (id : String)
    (e : InboundEmail) (rs : Bool) (now : Int) (h : (keys st.emails).Nodup) :
    (mark_as_processed days st id e rs now).emails.lookup id
      = some (ledger_entry e rs now) := by
  unfold mark_as_processed
  dsimp only
  have hn1 : (keys (dictInsert st.emails id (ledger_entry e rs now))).Nodup :=
    nodup_keys_dictInsert _ _ _ h
  have hl1 : (dictInsert st.emails id (ledger_entry e rs now)).lookup id
      = some (ledger_entry e rs now) := lookup_dictInsert _ _ _
  split
  · rw [cleanup_emails_eq, lookup_removeKeys _ _ hn1 id, if_neg ?_]
    · exact hl1
    · intro hmem
      have hcond := (mem_stale_keys days
        { st with emails := dictInsert st.emails id (ledger_entry e rs now) } now hn1 id
        (ledger_entry e rs now) hl1).mp hmem
      have hd : (0 : Int) ≤ (days : Int) * 86400 := by positivity
      have : (ledger_entry e rs now).processed_at = now := rfl
      rw [this] at hcond
      omega
  · exact hl1

theorem nodup_keys_mark (days : Nat) (st : TrackerState) (id : String)
    (e : InboundEmail) (rs : Bool) (now : Int) (h : (keys st.emails).Nodup) :
    (keys (mark_as_processed days st id e rs now).emails).Nodup := by
  unfold mark_as_processed
  dsimp only
  split
  · exact nodup_keys_cleanup _ _ _ (nodup_keys_dictInsert _ _ _ h)
  · exact nodup_keys_dictInsert _ _ _ h

/-- C6: mark_as_processed is an idempotent upsert: any sequence of marks
preserves the at-most-one-record-per-id invariant (Nodup keys), and marking
the same id twice leaves exactly one record for that id, holding the second
call's data. -/
theorem mark_as_processed_upsert :
    (∀ (days : Nat) (st : TrackerState) (calls : List (String × InboundEmail × Bool × Int)),
        (keys st.emails).Nodup → (keys (applyMarks days st calls).emails).Nodup) ∧
    (∀ (days : Nat) (st : TrackerState) (id : String) (e1 e2 : InboundEmail)
        (rs1 rs2 : Bool) (t1 t2 : Int), (keys st.emails).Nodup →
        (applyMarks days st [(id, e1, rs1, t1), (id, e2, rs2, t2)]).emails.countP
            (fun p => p.1 == id) = 1 ∧
        (applyMarks days st [(id, e1, rs1, t1), (id, e2, rs2, t2)]).emails.lookup id
            = some (ledger_entry e2 rs2 t2)) := by
  have hseq : ∀ (days : Nat) (calls : List (String × InboundEmail × Bool × Int))
      (st : TrackerState), (keys st.emails).Nodup →
      (keys (applyMarks days st calls).emails).Nodup := by
    intro days calls
    induction calls with
    | nil => intro st h; exact h
    | cons cl rest ih =>
      intro st h
      exact ih _ (nodup_keys_mark days st cl.1 cl.2.1 cl.2.2.1 cl.2.2.2 h)
  refine ⟨fun days st calls h => hseq days calls st h, ?_⟩
  intro days st id e1 e2 rs1 rs2 t1 t2 h
  have happ : applyMarks days st [(id, e1, rs1, t1), (id, e2, rs2, t2)]
      = mark_as_processed days (mark_as_processed days st id e1 rs1 t1) id e2 rs2 t2 := rfl
  have hn1 : (keys (mark_as_processed days st id e1 rs1 t1).emails).Nodup :=
    nodup_keys_mark days st id e1 rs1 t1 h
  have hl2 : (mark_as_processed days (mark_as_processed days st id e1 rs1 t1) id e2 rs2 t2).emails.lookup id
      = some (ledger_entry e2 rs2 t2) :=
    mark_emails_lookup_self days (mark_as_processed days st id e1 rs1 t1) id e2 rs2 t2 hn1
  have hn2 : (keys (mark_as_processed days (mark_as_processed days st id e1 rs1 t1) id e2 rs2 t2).emails).Nodup :=
    nodup_keys_mark days _ id e2 rs2 t2 hn1
  rw [happ]
  refine ⟨?_, hl2⟩
  rw [countP_key _ _ hn2, if_pos (mem_keys_of_lookup hl2)]

/-- C6 witness: two marks of the same id on the empty ledger leave exactly one
record holding the second call's data. -/
theorem mark_as_processed_upsert_witness :
    ((keys (⟨[], 0⟩ : TrackerState).emails).Nodup) ∧
    (applyMarks 7 ⟨[], 0⟩
        [("m1", { subject := some "first" }, true, 1000),
         ("m1", { subject := some "second" }, false, 2000)]).emails.countP
        (fun p => p.1 == "m1") = 1 ∧
    (applyMarks 7 ⟨[], 0⟩
        [("m1", { subject := some "first" }, true, 1000),
         ("m1", { subject := some "second" }, false, 2000)]).emails.lookup "m1"
        = some (ledger_entry { subject := some "second" } false 2000) :=
  ⟨by simp [keys_nil],
   (mark_as_processed_upsert.2 7 ⟨[], 0⟩ "m1" { subject := some "first" }
      { subject := some "second" } true false 1000 2000 (by simp [keys_nil])).1,
   (mark_as_processed_upsert.2 7 ⟨[], 0⟩ "m1" { subject := some "first" }
      { subject := some "second" } true false 1000 2000 (by simp [keys_nil])).2⟩

/-- C7: after _cleanup_old_entries runs, a record strictly older than the
retention cutoff (now − max_history_days) is absent, and a record strictly
newer than the cutoff is retained unchanged. -/
theorem cleanup_retention (days : Nat) (st : TrackerState) (now : Int) (id : String)
    (r : LedgerRecord) (h : (keys st.emails).Nodup)
    (hl : st.emails.lookup id = some r) :
    (r.processed_at < now - (days : Int) * 86400 →
        (_cleanup_old_entries days st now).emails.lookup id = none) ∧
    (now - (days : Int) * 86400 < r.processed_at →
        (_cleanup_old_entries days st now).emails.lookup id = some r) := by
  constructor
  · intro hold
    rw [cleanup_emails_eq, lookup_removeKeys _ _ h id,
      if_pos ((mem_stale_keys days st now h id r hl).mpr hold)]
  · intro hnew
    rw [cleanup_emails_eq, lookup_removeKeys _ _ h id, if_neg ?_]
    · exact hl
    · intro hmem
      have := (mem_stale_keys days st now h id r hl).mp hmem
      omega

/-- C7 witness: with a 7-day window at now = 1000000, a record from
timestamp 0 is dropped and a record from now − 60 is retained. -/
theorem cleanup_retention_witness :
    (_cleanup_old_entries 7
        ⟨[("old", ⟨0, "s", "a@b.com", "x", true⟩),
          ("new", ⟨999940, "s", "a@b.com", "x", true⟩)], 0⟩ 1000000).emails.lookup "old"
      = none ∧
    (_cleanup_old_entries 7
        ⟨[("old", ⟨0, "s", "a@b.com", "x", true⟩),
          ("new", ⟨999940, "s", "a@b.com", "x", true⟩)], 0⟩ 1000000).emails.lookup "new"
      = some ⟨999940, "s", "a@b.com", "x", true⟩ :=
  ⟨(cleanup_retention 7
      ⟨[("old", ⟨0, "s", "a@b.com", "x", true⟩),
        ("new", ⟨999940, "s", "a@b.com", "x", true⟩)], 0⟩ 1000000 "old"
      ⟨0, "s", "a@b.com", "x", true⟩ (by decide)
      (by decide)).1 (by decide),
   (cleanup_retention 7
      ⟨[("old", ⟨0, "s", "a@b.com", "x", true⟩),
        ("new", ⟨999940, "s", "a@b.com", "x", true⟩)], 0⟩ 1000000 "new"
      ⟨999940, "s", "a@b.com", "x", true⟩ (by decide)
      (by decide)).2 (by decide)⟩

/-! ### EmailAutomationSystem.should_process_email (main.py) -/

/-- The configuration fields of EmailAutomationSystem consulted by
should_process_email. -/
structure AutomationConfig where
  max_emails_per_sender : Nat
  spam_threshold : ℚ
  rate_limit_window : Nat
deriving DecidableEq

/-- The values set in EmailAutomationSystem.__init__. -/
def defaultConfig : AutomationConfig :=
  { max_emails_per_sender := 3, spam_threshold := 0.5, rate_limit_window := 24 }

/-- The f-string of the rate-limit branch:
`f"Rate limit exceeded for sender (max {max} per {window}h)"`. -/
def rate_limit_reason (cfg : AutomationConfig) : String :=
  "Rate limit exceeded for sender (max " ++ toString cfg.max_emails_per_sender ++
    " per " ++ toString cfg.rate_limit_window ++ "h)"

/-- EmailAutomationSystem.should_process_email: already-processed check, then
the risk filter, then the per-sender rate limit. -/
def should_process_email (cfg : AutomationConfig) (st : TrackerState) (now : Int)
    (email_data : InboundEmail) : Bool × String :=
  if is_processed st email_data.id then (false, "Already processed")
  else
    let sk := should_skip_email email_data cfg.spam_threshold
    if sk.1 then (false, sk.2)
    else
      let sender_count :=
        count_sender_emails st (getS email_data.from_) cfg.rate_limit_window now
      if cfg.max_emails_per_sender ≤ sender_count then (false, rate_limit_reason cfg)
      else (true, "")

/-- C5: an email that is neither already processed nor risk-skipped, whose
sender has at least max_emails_per_sender ledger records inside the trailing
rate-limit window (case-insensitive address match), is not processed, with the
rate-limit reason. -/
theorem rate_limit_blocks (cfg : AutomationConfig) (st : TrackerState) (now : Int)
    (e : InboundEmail)
    (hproc : is_processed st e.id = false)
    (hskip : (should_skip_email e cfg.spam_threshold).1 = false)
    (hcount : cfg.max_emails_per_sender
      ≤ count_sender_emails st (getS e.from_) cfg.rate_limit_window now) :
    should_process_email cfg st now e = (false, rate_limit_reason cfg) := by
  unfold should_process_email
  rw [hproc]
  dsimp only
  rw [hskip]
  simp only [Bool.false_eq_true, if_false]
  rw [if_pos hcount]

/-- C5 witness: with the default configuration (max 3 per 24h), a 4th email
from `A@B.com` after 3 in-window records from `a@b.com` is rejected with the
rate-limit reason. -/
theorem rate_limit_blocks_witness :
    is_processed
        ⟨[("e1", ⟨999901, "s", "a@b.com", "x", true⟩),
          ("e2", ⟨999902, "s", "a@b.com", "x", true⟩),
          ("e3", ⟨999903, "s", "a@b.com", "x", true⟩)], 0⟩
        (some "e4") = false ∧
    (should_skip_email
        { id := some "e4", subject := some "Question about the product",
          body := some "How do I configure the widget?", from_ := some "A@B.com" }
        defaultConfig.spam_threshold).1 = false ∧
    defaultConfig.max_emails_per_sender
      ≤ count_sender_emails
          ⟨[("e1", ⟨999901, "s", "a@b.com", "x", true⟩),
            ("e2", ⟨999902, "s", "a@b.com", "x", true⟩),
            ("e3", ⟨999903, "s", "a@b.com", "x", true⟩)], 0⟩
          (getS (some "A@B.com")) defaultConfig.rate_limit_window 1000000 ∧
    should_process_email defaultConfig
        ⟨[("e1", ⟨999901, "s", "a@b.com", "x", true⟩),
          ("e2", ⟨999902, "s", "a@b.com", "x", true⟩),
          ("e3", ⟨999903, "s", "a@b.com", "x", true⟩)], 0⟩
        1000000
        { id := some "e4", subject := some "Question about the product",
          body := some "How do I configure the widget?", from_ := some "A@B.com" }
      = (false, "Rate limit exceeded for sender (max 3 per 24h)") :=
  ⟨by decide, by with_unfolding_all decide, by decide,
   (rate_limit_blocks defaultConfig
      ⟨[("e1", ⟨999901, "s", "a@b.com", "x", true⟩),
        ("e2", ⟨999902, "s", "a@b.com", "x", true⟩),
        ("e3", ⟨999903, "s", "a@b.com", "x", true⟩)], 0⟩
      1000000
      { id := some "e4", subject := some "Question about the product",
        body := some "How do I configure the widget?", from_ := some "A@B.com" }
      (by decide) (by with_unfolding_all decide) (by decide)).trans
     (by with_unfolding_all rfl)⟩
